import Mathlib

/-!
Shallow embedding of the ConMenServer websocket game server
(`con_server.py`, `dto.py`).

The mutable module-level globals `players` (a dict from player id to
`PlayerData`, iterated in insertion order) and `game_state` are modelled as an
explicit `ServerState` record threaded through the operations.  The registry is
a list of `PlayerData` in dict insertion order; dict keys are the `playerId`
fields.  JSON numbers carried by `move` frames are modelled as `Int` (the code
copies them verbatim, no arithmetic is performed on them).  A Python exception
escaping an operation is modelled with `Option`: `none` means the operation
raised.
-/

/-- `PlayerType` from `dto.py`: the two role strings `"COP"` and `"ROBBER"`. -/
inductive PlayerType
  | COP
  | ROBBER
deriving DecidableEq

/-- `PlayerData` from `dto.py`.  `playerType` is `none` while unassigned
(`playerData.playerType = None`).  `hasWs` models whether `ws is not None`,
the only fact about the connection handle the server ever reads. -/
structure PlayerData where
  playerId : String
  playerType : Option PlayerType
  completedStage : Bool
  username : String
  x : Int
  y : Int
  hasWs : Bool
deriving DecidableEq

/-- `PlayerData.create_new_player` from `dto.py` (lines 16-26). -/
def PlayerData.create_new_player (player_id : String) : PlayerData :=
  { playerId := player_id
    x := 0
    y := 0
    hasWs := true
    completedStage := false
    playerType := none
    username := "Anonymous" }

/-- The externally visible fields serialized by `PlayerData.to_dict`
(`dto.py` lines 28-36); the `ws` handle is not serialized. -/
structure PlayerView where
  playerId : String
  playerType : Option PlayerType
  completedStage : Bool
  username : String
  x : Int
  y : Int
deriving DecidableEq

/-- `PlayerData.to_dict` from `dto.py`. -/
def PlayerData.to_dict (p : PlayerData) : PlayerView :=
  { playerId := p.playerId
    playerType := p.playerType
    completedStage := p.completedStage
    username := p.username
    x := p.x
    y := p.y }

/-- The module-level `game_state` dict of `con_server.py` (lines 10-15). -/
structure GameState where
  stageStarted : Bool
  stageCompleted : Bool
  cops : List String
  robbers : List String
deriving DecidableEq

/-- The initial value bound to `game_state` at module load. -/
def game_state_init : GameState :=
  { stageStarted := false
    stageCompleted := false
    cops := []
    robbers := [] }

/-- The whole mutable server state: the `players` registry dict (in insertion
order) together with `game_state`. -/
structure ServerState where
  players : List PlayerData
  gameState : GameState
deriving DecidableEq

/-- Keys of the registry dict, in iteration order. -/
def registryKeys (ps : List PlayerData) : List String :=
  ps.map (fun p => p.playerId)

/-- `players[pid]` lookup (dict keys are unique, so first match is the match). -/
def getPlayer (pid : String) (ps : List PlayerData) : Option PlayerData :=
  ps.find? (fun p => p.playerId == pid)

/-- `del players[pid]`: drop the (unique) entry with key `pid`. -/
def eraseKey (pid : String) : List PlayerData → List PlayerData
  | [] => []
  | p :: rest => if p.playerId = pid then rest else p :: eraseKey pid rest

/-- Python `pid in players`. -/
def keyPresent (pid : String) (ps : List PlayerData) : Bool :=
  ps.any (fun p => p.playerId == pid)

/-- `del players[pid]` as a fallible operation: `none` models the `KeyError`
raised when `pid` is not a key of the dict. -/
def removePlayer (pid : String) (ps : List PlayerData) : Option (List PlayerData) :=
  if keyPresent pid ps then some (eraseKey pid ps) else none

/-- The `cops_count` computed by `start_stage` (`con_server.py` lines 82-85)
from the registered-player count. -/
def copsCountFor (n : Nat) : Nat :=
  if n > 5 then 2 else 1

/-- The role-assignment loop of `start_stage` (`con_server.py` lines 86-93):
walk the registry in iteration order with the running `cops_count`; while it is
positive the player becomes a COP and its id is appended to the cops list,
afterwards the player becomes a ROBBER and its id is appended to the robbers
list.  Returns the updated registry and the two appended id lists, in append
order. -/
def assignRoles : Nat → List PlayerData → List PlayerData × List String × List String
  | _, [] => ([], [], [])
  | copsCount, p :: rest =>
    if copsCount > 0 then
      let r := assignRoles (copsCount - 1) rest
      ({ p with playerType := some PlayerType.COP } :: r.1, p.playerId :: r.2.1, r.2.2)
    else
      let r := assignRoles copsCount rest
      ({ p with playerType := some PlayerType.ROBBER } :: r.1, r.2.1, p.playerId :: r.2.2)

/-- `start_stage` from `con_server.py` (lines 77-95).  With fewer than 2
registered players it returns without touching anything.  Otherwise it runs the
assignment loop — appending this round's ids onto the existing
`game_state["cops"]` / `game_state["robbers"]` lists, which it never clears —
and finally sets `stageStarted := true`, `stageCompleted := false`. -/
def start_stage (st : ServerState) : ServerState :=
  if st.players.length < 2 then st
  else
    let r := assignRoles (copsCountFor st.players.length) st.players
    { players := r.1
      gameState :=
        { stageStarted := true
          stageCompleted := false
          cops := st.gameState.cops ++ r.2.1
          robbers := st.gameState.robbers ++ r.2.2 } }

/-- One inbound text frame, as seen by `wait_for_client_msgs` after the wire.
`malformed` is a frame `json.loads` rejects; `missingType`,
`moveMissingField` and `stageCompletedMissingField` are valid JSON objects
whose required-field lookup (`data["type"]`, `data["dx"]`/`data["dy"]`,
`data["stageCompleted"]`) raises `KeyError`; the rest are well-formed
messages. -/
inductive Frame
  | malformed
  | missingType
  | moveMissingField
  | stageCompletedMissingField
  | move (dx dy : Int)
  | stageCompletedMsg (b : Bool)
  | startGame
  | unknown (t : String)
deriving DecidableEq

/-- The `move` branch of `wait_for_client_msgs` (`con_server.py` lines 44-47):
`players[player_id].x = dx; players[player_id].y = dy`. -/
def applyMove (st : ServerState) (pid : String) (dx dy : Int) : ServerState :=
  { st with
    players := st.players.map (fun p =>
      if p.playerId = pid then { p with x := dx, y := dy } else p) }

/-- The `stageCompleted` branch (`con_server.py` lines 48-49). -/
def applyStageCompleted (st : ServerState) (pid : String) (b : Bool) : ServerState :=
  { st with
    players := st.players.map (fun p =>
      if p.playerId = pid then { p with completedStage := b } else p) }

/-- The body of the `async for` loop of `wait_for_client_msgs`
(`con_server.py` lines 43-53) on one frame.  `none` models an exception
escaping the loop body (`json.loads` failure or a `KeyError` on a missing
required field); no state is mutated in that case because the field reads
precede every assignment.  Unknown types are printed and ignored. -/
def applyFrame (st : ServerState) (pid : String) : Frame → Option ServerState
  | Frame.malformed => none
  | Frame.missingType => none
  | Frame.moveMissingField => none
  | Frame.stageCompletedMissingField => none
  | Frame.move dx dy => some (applyMove st pid dx dy)
  | Frame.stageCompletedMsg b => some (applyStageCompleted st pid b)
  | Frame.startGame => some (start_stage st)
  | Frame.unknown _ => some st

/-- `wait_for_client_msgs` (`con_server.py` lines 39-53) on the connection's
whole inbound frame sequence.  There is no try/except inside the loop: the
first frame whose handling raises aborts the loop, leaving the remaining
frames unprocessed; the Bool records whether the loop ended by an exception
(`true`) or by the connection closing after the last frame (`false`). -/
def wait_for_client_msgs (pid : String) : ServerState → List Frame → ServerState × Bool
  | st, [] => (st, false)
  | st, f :: rest =>
    match applyFrame st pid f with
    | some st' => wait_for_client_msgs pid st' rest
    | none => (st, true)

/-- `handler` (`con_server.py` lines 20-37): register a fresh `PlayerData`
under the new id (line 25), then `await ws.send(...)` the init message
(line 26) — this send sits after registration but before (outside) the
try/finally.  `initSendOk` is whether that send returns normally: when it
raises (e.g. the client already dropped), the exception propagates out of
`handler` before the try/finally is entered, so the registered record is
never deleted.  When it succeeds, the handler drains inbound frames (the
try/except around `wait_for_client_msgs` absorbs both `ConnectionClosed`
and any other exception) and in the `finally` deletes the record. -/
def handler (pid : String) (initSendOk : Bool) (frames : List Frame)
    (st : ServerState) : ServerState :=
  let stReg : ServerState := { st with players := st.players ++ [PlayerData.create_new_player pid] }
  if initSendOk then
    let res := wait_for_client_msgs pid stReg frames
    { res.1 with players := eraseKey pid res.1.players }
  else stReg

/-- The per-tick snapshot built by `game_loop` (`con_server.py` lines 58-61):
`{pid: p.to_dict() for pid, p in players.items()}`. -/
def snapshot (ps : List PlayerData) : List (String × PlayerView) :=
  ps.map (fun p => (p.playerId, p.to_dict))

/-- Lookup of one player's entry in a broadcast snapshot. -/
def lookupSnapshot (pid : String) (s : List (String × PlayerView)) : Option PlayerView :=
  (s.find? (fun e => e.1 == pid)).map (fun e => e.2)

/-- The send fan-out of one tick of `game_loop` (`con_server.py` lines 70-75):
iterate the registry in order, skip players whose `ws` is `None`, send to the
rest.  `fails pid = true` models `p.ws.send` raising for that connection; the
`try`/`except` wraps the whole tick, so the first raising send aborts the
remainder of the fan-out.  Returns the ids that were actually sent the state
message this tick. -/
def tickDeliver (fails : String → Bool) : List PlayerData → List String
  | [] => []
  | p :: rest =>
    if p.hasWs then
      if fails p.playerId then []
      else p.playerId :: tickDeliver fails rest
    else tickDeliver fails rest

/-- `n` iterations of the `while True` broadcast loop of `game_loop`
(`con_server.py` lines 55-75) over an unchanging registry: the per-tick
exception handler prints and falls through, so every iteration runs its tick
regardless of earlier send failures.  Returns each tick's delivered-id list,
most recent tick last. -/
def game_loop_ticks (fails : String → Bool) (ps : List PlayerData) : Nat → List (List String)
  | 0 => []
  | n + 1 => tickDeliver fails ps :: game_loop_ticks fails ps n

/-- The operations that can touch the module globals, for the reachability
claims: a connection opening (`handler` lines 23-25), a connection's cleanup
(`handler` line 37), and one inbound frame handled on behalf of a
connection. -/
inductive Op
  | connect (pid : String)
  | disconnect (pid : String)
  | frame (pid : String) (f : Frame)
deriving DecidableEq

/-- Whether an operation is a `startGame` frame (the only path into
`start_stage`). -/
def isStartGame : Op → Bool
  | Op.frame _ Frame.startGame => true
  | _ => false

/-- Effect of one operation on the globals.  A frame whose handling raises
leaves the state unchanged (the exception propagates to `handler`, which only
prints). -/
def stepOp (st : ServerState) : Op → ServerState
  | Op.connect pid => { st with players := st.players ++ [PlayerData.create_new_player pid] }
  | Op.disconnect pid => { st with players := eraseKey pid st.players }
  | Op.frame pid f => (applyFrame st pid f).getD st

/-- Run a sequence of operations. -/
def runOps (st : ServerState) : List Op → ServerState
  | [] => st
  | op :: rest => runOps (stepOp st op) rest

/-- Sample players and states used by concrete witnesses and counterexamples. -/
def pA : PlayerData := PlayerData.create_new_player "a"

def pB : PlayerData := PlayerData.create_new_player "b"

def pC : PlayerData := PlayerData.create_new_player "c"

def sA : ServerState := { players := [pA], gameState := game_state_init }

def sAB : ServerState := { players := [pA, pB], gameState := game_state_init }

/-- The registry and game state just before `handler`'s message loop for the
single connection `"a"` on a fresh server (the record `pA` registered, nothing
else): the scenario of the malformed-frame claim. -/
def sEmpty : ServerState := { players := [], gameState := game_state_init }

/-- Players whose websocket send raises on the failing connection `"b"`. -/
def failsB : String → Bool := fun s => s == "b"

/-- A state in which a round is already in progress, for the monotonicity
witness. -/
def sStarted : ServerState :=
  { players := [{ pA with playerType := some PlayerType.COP },
                { pB with playerType := some PlayerType.ROBBER }]
    gameState :=
      { stageStarted := true
        stageCompleted := false
        cops := ["a"]
        robbers := ["b"] } }

/-- The registry reached from `sAB` by: first round start, then player `"a"`
disconnects and a new player `"c"` connects — the state just before a second
round start. -/
def sMid : ServerState :=
  runOps sAB [Op.frame "a" Frame.startGame, Op.disconnect "a", Op.connect "c"]

/-! ### Helper lemmas -/

theorem assignRoles_playerId (k : Nat) (ps : List PlayerData) :
    ((assignRoles k ps).1).map (fun p => p.playerId) = ps.map (fun p => p.playerId) := by
  induction ps generalizing k with
  | nil => simp [assignRoles]
  | cons p rest ih =>
    cases k with
    | zero => simp [assignRoles, ih]
    | succ m => simp [assignRoles, ih]

theorem assignRoles_cops (k : Nat) (ps : List PlayerData) :
    (assignRoles k ps).2.1 = (ps.take k).map (fun p => p.playerId) := by
  induction ps generalizing k with
  | nil => simp [assignRoles]
  | cons p rest ih =>
    cases k with
    | zero => simp [assignRoles, ih]
    | succ m => simp [assignRoles, ih]

theorem assignRoles_robbers (k : Nat) (ps : List PlayerData) :
    (assignRoles k ps).2.2 = (ps.drop k).map (fun p => p.playerId) := by
  induction ps generalizing k with
  | nil => simp [assignRoles]
  | cons p rest ih =>
    cases k with
    | zero => simp [assignRoles, ih]
    | succ m => simp [assignRoles, ih]

theorem assignRoles_playerType (k : Nat) (ps : List PlayerData) :
    ((assignRoles k ps).1).map (fun p => p.playerType) =
      List.replicate (min k ps.length) (some PlayerType.COP) ++
        List.replicate (ps.length - k) (some PlayerType.ROBBER) := by
  induction ps generalizing k with
  | nil => simp [assignRoles]
  | cons p rest ih =>
    cases k with
    | zero => simp [assignRoles, ih, List.replicate_succ]
    | succ m =>
      simp [assignRoles, ih, List.replicate_succ, Nat.succ_min_succ, Nat.succ_sub_succ]

theorem assignRoles_completedStage (k : Nat) (ps : List PlayerData) :
    ((assignRoles k ps).1).map (fun p => p.completedStage) =
      ps.map (fun p => p.completedStage) := by
  induction ps generalizing k with
  | nil => simp [assignRoles]
  | cons p rest ih =>
    cases k with
    | zero => simp [assignRoles, ih]
    | succ m => simp [assignRoles, ih]

theorem registryKeys_map_update (ps : List PlayerData) (upd : PlayerData → PlayerData)
    (h : ∀ p, (upd p).playerId = p.playerId) :
    registryKeys (ps.map upd) = registryKeys ps := by
  simp only [registryKeys, List.map_map]
  congr 1
  funext p
  exact h p

theorem registryKeys_start_stage (st : ServerState) :
    registryKeys (start_stage st).players = registryKeys st.players := by
  unfold start_stage
  split
  · rfl
  · exact assignRoles_playerId ..

theorem registryKeys_applyFrame (st st' : ServerState) (pid : String) (f : Frame)
    (h : applyFrame st pid f = some st') :
    registryKeys st'.players = registryKeys st.players := by
  cases f <;> simp [applyFrame] at h <;> subst h
  · exact registryKeys_map_update _ _ (fun p => by split <;> rfl)
  · exact registryKeys_map_update _ _ (fun p => by split <;> rfl)
  · exact registryKeys_start_stage st
  · rfl

theorem registryKeys_wait (pid : String) (fs : List Frame) (st : ServerState) :
    registryKeys ((wait_for_client_msgs pid st fs).1).players = registryKeys st.players := by
  induction fs generalizing st with
  | nil => rfl
  | cons f rest ih =>
    unfold wait_for_client_msgs
    cases h : applyFrame st pid f with
    | none => rfl
    | some st' => rw [ih st']; exact registryKeys_applyFrame st st' pid f h

theorem registryKeys_eraseKey_append (pid : String) (ps : List PlayerData) (ks : List String)
    (hps : registryKeys ps = ks ++ [pid]) (hfresh : pid ∉ ks) :
    registryKeys (eraseKey pid ps) = ks := by
  induction ps generalizing ks with
  | nil => simp [registryKeys] at hps
  | cons p rest ih =>
    simp only [registryKeys, List.map_cons] at hps
    cases ks with
    | nil =>
      simp at hps
      simp [eraseKey, hps.1, registryKeys, hps.2]
    | cons k ks' =>
      simp at hps
      have hpk : p.playerId ≠ pid := by
        intro hkp
        have hpidk : pid = k := hkp.symm.trans hps.1
        exact hfresh (by rw [hpidk]; exact List.mem_cons_self ..)
      simp only [eraseKey, if_neg hpk, registryKeys, List.map_cons]
      rw [hps.1]
      exact congrArg (List.cons k)
        (ih ks' hps.2 (fun hmem => hfresh (List.mem_cons_of_mem _ hmem)))

theorem getPlayer_map (pid : String) (ps : List PlayerData) (upd : PlayerData → PlayerData)
    (h : ∀ p, (upd p).playerId = p.playerId) :
    getPlayer pid (ps.map upd) = (getPlayer pid ps).map upd := by
  unfold getPlayer
  have hfun : ((fun p : PlayerData => p.playerId == pid) ∘ upd) =
      (fun p : PlayerData => p.playerId == pid) := by
    funext p
    simp [Function.comp, h]
  rw [List.find?_map, hfun]

theorem getPlayer_playerId (pid : String) (ps : List PlayerData) (p : PlayerData)
    (h : getPlayer pid ps = some p) : p.playerId = pid := by
  unfold getPlayer at h
  have h2 := @List.find?_some PlayerData (fun q => q.playerId == pid) p ps h
  exact beq_iff_eq.mp h2

theorem lookupSnapshot_snapshot (pid : String) (ps : List PlayerData) :
    lookupSnapshot pid (snapshot ps) = (getPlayer pid ps).map PlayerData.to_dict := by
  unfold lookupSnapshot snapshot getPlayer
  rw [List.find?_map]
  rw [Option.map_map]
  rfl

theorem snapshot_keys (ps : List PlayerData) :
    (snapshot ps).map Prod.fst = registryKeys ps := by
  simp [snapshot, registryKeys, List.map_map]

theorem keyPresent_iff (pid : String) (ps : List PlayerData) :
    keyPresent pid ps = true ↔ pid ∈ registryKeys ps := by
  constructor
  · intro h
    rcases List.any_eq_true.mp h with ⟨q, hq, hqe⟩
    exact List.mem_map.mpr ⟨q, hq, beq_iff_eq.mp hqe⟩
  · intro h
    rcases List.mem_map.mp h with ⟨q, hq, hqe⟩
    exact List.any_eq_true.mpr ⟨q, hq, beq_iff_eq.mpr hqe⟩

theorem keyPresent_eraseKey (pid : String) (ps : List PlayerData)
    (hnd : (registryKeys ps).Nodup) :
    keyPresent pid (eraseKey pid ps) = false := by
  induction ps with
  | nil => rfl
  | cons p rest ih =>
    simp only [registryKeys, List.map_cons, List.nodup_cons] at hnd
    by_cases hp : p.playerId = pid
    · simp only [eraseKey, if_pos hp]
      rw [Bool.eq_false_iff]
      intro hmem
      exact hnd.1 (hp ▸ (keyPresent_iff pid rest).mp hmem)
    · simp only [eraseKey, if_neg hp]
      rw [Bool.eq_false_iff]
      intro hmem
      rcases List.any_eq_true.mp hmem with ⟨q, hq, hqe⟩
      rcases List.mem_cons.mp hq with hq1 | hq2
      · exact hp (hq1 ▸ beq_iff_eq.mp hqe)
      · have : keyPresent pid (eraseKey pid rest) = true :=
          List.any_eq_true.mpr ⟨q, hq2, hqe⟩
        rw [ih hnd.2] at this
        exact Bool.false_ne_true this

/-! ### Claim theorems -/

/-- C2: with fewer than 2 registered players, `start_stage` (the `startGame`
intent) returns without error and leaves the entire server state — registry and
`game_state`, in particular `stageStarted` — unchanged. -/
theorem C2_insufficient_players_noop (st : ServerState) (h : st.players.length < 2) :
    start_stage st = st ∧
    (start_stage st).gameState.stageStarted = st.gameState.stageStarted := by
  have e : start_stage st = st := by
    unfold start_stage
    rw [if_pos h]
  exact ⟨e, by rw [e]⟩

theorem C2_insufficient_players_noop_witness :
    sA.players.length < 2 ∧
      (start_stage sA = sA ∧
        (start_stage sA).gameState.stageStarted = sA.gameState.stageStarted) :=
  ⟨by decide, C2_insufficient_players_noop sA (by decide)⟩

/-- C9: `PlayerData.create_new_player` builds the record with position
`(0, 0)`, role unassigned (`None`), `completedStage = false` and the
placeholder username `"Anonymous"`, and a new connection inserts exactly that
record into the registry. -/
theorem C9_create_new_player_defaults (pid : String) (st : ServerState) :
    (PlayerData.create_new_player pid).playerId = pid ∧
    (PlayerData.create_new_player pid).x = 0 ∧
    (PlayerData.create_new_player pid).y = 0 ∧
    (PlayerData.create_new_player pid).playerType = none ∧
    (PlayerData.create_new_player pid).completedStage = false ∧
    (PlayerData.create_new_player pid).username = "Anonymous" ∧
    (stepOp st (Op.connect pid)).players = st.players ++ [PlayerData.create_new_player pid] :=
  ⟨rfl, rfl, rfl, rfl, rfl, rfl, rfl⟩

/-- C8 counterexample: `del players[id]` on a nonexistent id raises `KeyError`
(`removePlayer` returns `none`) instead of being a no-op, so removal is not
idempotent: after removing `"a"` from the one-player registry, a second
`remove("a")` errors. -/
theorem C8_remove_raises_cex :
    removePlayer "a" ([] : List PlayerData) = none ∧
    removePlayer "a" ([] : List PlayerData) ≠ some [] ∧
    removePlayer "a" [pA] = some [] ∧
    removePlayer "a" [] ≠ removePlayer "a" [pA] := by
  decide

/-- C8 amended: `remove(id)` deletes the record when the id is present, but a
second `remove(id)` raises `KeyError` (`none`) rather than being a silent
no-op; the failing second call performs no mutation, so the registry contents
still equal the single-call state. -/
theorem C8_remove_amended (pid : String) (ps ps' : List PlayerData)
    (hnd : (registryKeys ps).Nodup) (h : removePlayer pid ps = some ps') :
    ps' = eraseKey pid ps ∧
    keyPresent pid ps' = false ∧
    removePlayer pid ps' = none := by
  have hps' : ps' = eraseKey pid ps := by
    unfold removePlayer at h
    by_cases hk : keyPresent pid ps = true
    · rw [if_pos hk] at h
      exact (Option.some_injective _ h).symm
    · rw [if_neg hk] at h
      exact absurd h (by simp)
  have habsent : keyPresent pid ps' = false := by
    rw [hps']
    exact keyPresent_eraseKey pid ps hnd
  exact ⟨hps', habsent, by simp [removePlayer, habsent]⟩

theorem C8_remove_amended_witness :
    ((registryKeys [pA]).Nodup ∧ removePlayer "a" [pA] = some []) ∧
      ([] = eraseKey "a" [pA] ∧
        keyPresent "a" ([] : List PlayerData) = false ∧
        removePlayer "a" ([] : List PlayerData) = none) :=
  ⟨⟨by decide, by decide⟩, C8_remove_amended "a" [pA] [] (by decide) (by decide)⟩

/-- C4 counterexample: `start_stage` never clears `game_state["cops"]` /
`game_state["robbers"]`, so after two successful round starts on the same
2-player registry the id `"a"` occurs twice across the two lists, refuting the
claim that each registered id appears exactly once there. -/
theorem C4_no_reset_cex :
    (start_stage (start_stage sAB)).gameState.cops = ["a", "a"] ∧
    (start_stage (start_stage sAB)).gameState.robbers = ["b", "b"] ∧
    ¬ (((start_stage (start_stage sAB)).gameState.cops ++
        (start_stage (start_stage sAB)).gameState.robbers).count "a" = 1) := by
  decide

/-- C4 amended: a successful `start_stage` does not reset anything per player:
it appends this round's assignment onto the existing cop/robber id lists and
leaves every player's `completedStage` flag as it was; only the global
`game_state["stageCompleted"]` is set back to `false`.  Hence after repeated
round starts the lists accumulate one copy of the assignment per start. -/
theorem C4_start_appends (st : ServerState) (h2 : 2 ≤ st.players.length) :
    (start_stage st).gameState.cops =
      st.gameState.cops ++
        (st.players.take (copsCountFor st.players.length)).map (fun p => p.playerId) ∧
    (start_stage st).gameState.robbers =
      st.gameState.robbers ++
        (st.players.drop (copsCountFor st.players.length)).map (fun p => p.playerId) ∧
    (start_stage st).players.map (fun p => p.completedStage) =
      st.players.map (fun p => p.completedStage) ∧
    (start_stage st).gameState.stageCompleted = false := by
  have hlt : ¬ st.players.length < 2 := by omega
  refine ⟨?_, ?_, ?_, ?_⟩ <;>
    simp [start_stage, hlt, assignRoles_cops, assignRoles_robbers, assignRoles_completedStage]

theorem C4_start_appends_witness :
    2 ≤ sAB.players.length ∧
      ((start_stage sAB).gameState.cops =
        sAB.gameState.cops ++
          (sAB.players.take (copsCountFor sAB.players.length)).map (fun p => p.playerId) ∧
      (start_stage sAB).gameState.robbers =
        sAB.gameState.robbers ++
          (sAB.players.drop (copsCountFor sAB.players.length)).map (fun p => p.playerId) ∧
      (start_stage sAB).players.map (fun p => p.completedStage) =
        sAB.players.map (fun p => p.completedStage) ∧
      (start_stage sAB).gameState.stageCompleted = false) :=
  ⟨by decide, C4_start_appends sAB (by decide)⟩

/-- C1: on a registry with at least 2 players and the cop/robber lists still
empty (their state before the first round), a successful `start_stage` assigns
roles in registry iteration order: the first `k` players (with
`k = copsCountFor count`, i.e. 2 when count > 5 and 1 otherwise) become COPs
and all remaining players become ROBBERs; the resulting cop and robber id
lists are disjoint and together cover exactly the registered ids in order, and
`stageStarted` is set to `true` while `stageCompleted` becomes `false`. -/
theorem C1_start_assigns_roles (st : ServerState)
    (h2 : 2 ≤ st.players.length)
    (hcops : st.gameState.cops = [])
    (hrobs : st.gameState.robbers = [])
    (hnd : (registryKeys st.players).Nodup) :
    (start_stage st).gameState.cops =
      (st.players.take (copsCountFor st.players.length)).map (fun p => p.playerId) ∧
    (start_stage st).gameState.robbers =
      (st.players.drop (copsCountFor st.players.length)).map (fun p => p.playerId) ∧
    (start_stage st).players.map (fun p => p.playerType) =
      List.replicate (copsCountFor st.players.length) (some PlayerType.COP) ++
        List.replicate (st.players.length - copsCountFor st.players.length)
          (some PlayerType.ROBBER) ∧
    (start_stage st).gameState.cops.Disjoint (start_stage st).gameState.robbers ∧
    (start_stage st).gameState.cops ++ (start_stage st).gameState.robbers =
      registryKeys st.players ∧
    (start_stage st).gameState.stageStarted = true ∧
    (start_stage st).gameState.stageCompleted = false := by
  have hlt : ¬ st.players.length < 2 := by omega
  have hk : copsCountFor st.players.length ≤ st.players.length := by
    unfold copsCountFor
    split <;> omega
  have e1 : (start_stage st).gameState.cops =
      (st.players.take (copsCountFor st.players.length)).map (fun p => p.playerId) := by
    simp [start_stage, hlt, hcops, assignRoles_cops]
  have e2 : (start_stage st).gameState.robbers =
      (st.players.drop (copsCountFor st.players.length)).map (fun p => p.playerId) := by
    simp [start_stage, hlt, hrobs, assignRoles_robbers]
  have e3 : (start_stage st).players.map (fun p => p.playerType) =
      List.replicate (copsCountFor st.players.length) (some PlayerType.COP) ++
        List.replicate (st.players.length - copsCountFor st.players.length)
          (some PlayerType.ROBBER) := by
    simp [start_stage, hlt, assignRoles_playerType, Nat.min_eq_left hk]
  refine ⟨e1, e2, e3, ?_, ?_, ?_, ?_⟩
  · rw [e1, e2, List.map_take, List.map_drop]
    exact List.disjoint_take_drop hnd le_rfl
  · rw [e1, e2, ← List.map_append, List.take_append_drop]
    rfl
  · simp [start_stage, hlt]
  · simp [start_stage, hlt]

theorem C1_start_assigns_roles_witness :
    (2 ≤ sAB.players.length ∧ sAB.gameState.cops = [] ∧ sAB.gameState.robbers = [] ∧
      (registryKeys sAB.players).Nodup) ∧
    ((start_stage sAB).gameState.cops =
      (sAB.players.take (copsCountFor sAB.players.length)).map (fun p => p.playerId) ∧
    (start_stage sAB).gameState.robbers =
      (sAB.players.drop (copsCountFor sAB.players.length)).map (fun p => p.playerId) ∧
    (start_stage sAB).players.map (fun p => p.playerType) =
      List.replicate (copsCountFor sAB.players.length) (some PlayerType.COP) ++
        List.replicate (sAB.players.length - copsCountFor sAB.players.length)
          (some PlayerType.ROBBER) ∧
    (start_stage sAB).gameState.cops.Disjoint (start_stage sAB).gameState.robbers ∧
    (start_stage sAB).gameState.cops ++ (start_stage sAB).gameState.robbers =
      registryKeys sAB.players ∧
    (start_stage sAB).gameState.stageStarted = true ∧
    (start_stage sAB).gameState.stageCompleted = false) :=
  ⟨⟨by decide, rfl, rfl, by decide⟩,
    C1_start_assigns_roles sAB (by decide) rfl rfl (by decide)⟩



/-- C3: the code violates the claim.  There is no per-message try/except
inside `wait_for_client_msgs`: a malformed frame raises out of the loop
(flag `true`), the remaining frames — including a subsequent valid `move` —
are never processed (the player's position is still the default, not
`(10, 20)`), and `handler`'s except/finally then deletes the record, ending
the session. -/
theorem C3_malformed_frame_bug :
    (wait_for_client_msgs "a" sA [Frame.malformed, Frame.move 10 20]).2 = true ∧
    (wait_for_client_msgs "a" sA [Frame.malformed, Frame.move 10 20]).1 = sA ∧
    getPlayer "a" ((wait_for_client_msgs "a" sA [Frame.malformed, Frame.move 10 20]).1).players ≠
      some { pA with x := 10, y := 20 } ∧
    (handler "a" true [Frame.malformed, Frame.move 10 20] sEmpty).players = [] := by
  decide



/-- C5 counterexample: one tick of `game_loop` over the registry
`[pA, pB, pC]` in which sending to `"b"` raises: the exception aborts the
whole tick's fan-out, so the live, non-failing connection `"c"` does not
receive that tick's state message. -/
theorem C5_partial_tick_cex :
    tickDeliver failsB [pA, pB, pC] = ["a"] ∧
    pC.hasWs = true ∧
    failsB "c" = false ∧
    "c" ∉ tickDeliver failsB [pA, pB, pC] := by
  decide

/-- C5 amended: a send failure aborts the remainder of that tick's delivery —
a tick delivers exactly to the live (`ws` not `None`) connections that precede
the first live failing one in registry order — but it does not terminate the
broadcast loop: every iteration of the loop runs its tick (`n` loop iterations
produce `n` tick deliveries, each computed afresh the same way). -/
theorem C5_tick_delivery_amended (fails : String → Bool) (ps : List PlayerData) (n : Nat) :
    tickDeliver fails ps =
      ((ps.filter (fun p => p.hasWs)).map (fun p => p.playerId)).takeWhile
        (fun i => !(fails i)) ∧
    game_loop_ticks fails ps n = List.replicate n (tickDeliver fails ps) := by
  constructor
  · induction ps with
    | nil => rfl
    | cons p rest ih =>
      by_cases hws : p.hasWs
      · by_cases hf : fails p.playerId
        · simp [tickDeliver, hws, hf, List.takeWhile]
        · simp [tickDeliver, hws, hf, List.takeWhile, ih]
      · simp [tickDeliver, hws, ih]
  · induction n with
    | zero => rfl
    | succ m ih => simp [game_loop_ticks, List.replicate_succ, ih]

/-- C6 counterexample: removal does not happen on every termination path.
The init send (`con_server.py` line 26) runs after registration but outside
the try/finally; if it raises — an I/O-error termination of the handler, e.g.
the client dropped right after the handshake — `del players[player_id]` is
never reached: the record stays registered and appears in every subsequent
broadcast snapshot although its connection is gone. -/
theorem C6_init_send_leak_cex :
    (handler "b" false [] sA).players = sA.players ++ [PlayerData.create_new_player "b"] ∧
    "b" ∈ registryKeys (handler "b" false [] sA).players ∧
    "b" ∈ (snapshot (handler "b" false [] sA).players).map Prod.fst := by
  decide

/-- C6 amended: on every termination path of `handler` that enters the
message loop — i.e. whenever the init send returned normally — the `finally`
removes the player's record: the frame sequence may end with the connection's
close or with an exception at any point inside the loop; at the `finally` the
record is still present (so the single deletion succeeds), afterwards the id
is a key of neither the registry nor any subsequent broadcast snapshot, and
every other connection's key survives untouched.  If the init send itself
raises, the handler terminates without the deletion and the record leaks
(see the counterexample). -/
theorem C6_handler_cleanup (st : ServerState) (pid : String) (frames : List Frame)
    (hfresh : pid ∉ registryKeys st.players) :
    registryKeys (handler pid true frames st).players = registryKeys st.players ∧
    pid ∉ registryKeys (handler pid true frames st).players ∧
    pid ∉ (snapshot (handler pid true frames st).players).map Prod.fst ∧
    pid ∈ registryKeys ((wait_for_client_msgs pid
        { st with players := st.players ++ [PlayerData.create_new_player pid] }
        frames).1).players := by
  have hwk := registryKeys_wait pid frames
    { st with players := st.players ++ [PlayerData.create_new_player pid] }
  have hreg : registryKeys (st.players ++ [PlayerData.create_new_player pid]) =
      registryKeys st.players ++ [pid] := by
    simp [registryKeys, PlayerData.create_new_player]
  have hh : (handler pid true frames st).players =
      eraseKey pid ((wait_for_client_msgs pid
        { st with players := st.players ++ [PlayerData.create_new_player pid] }
        frames).1).players := rfl
  have hkeys : registryKeys (handler pid true frames st).players = registryKeys st.players := by
    rw [hh]
    exact registryKeys_eraseKey_append pid _ _ (hwk.trans hreg) hfresh
  refine ⟨hkeys, ?_, ?_, ?_⟩
  · rw [hkeys]
    exact hfresh
  · rw [snapshot_keys, hkeys]
    exact hfresh
  · rw [hwk, hreg]
    simp

theorem C6_handler_cleanup_witness :
    ("b" ∉ registryKeys sA.players) ∧
      (registryKeys (handler "b" true [Frame.move 10 20, Frame.startGame] sA).players =
        registryKeys sA.players ∧
      "b" ∉ registryKeys (handler "b" true [Frame.move 10 20, Frame.startGame] sA).players ∧
      "b" ∉ (snapshot (handler "b" true
          [Frame.move 10 20, Frame.startGame] sA).players).map Prod.fst ∧
      "b" ∈ registryKeys ((wait_for_client_msgs "b"
          { sA with players := sA.players ++ [PlayerData.create_new_player "b"] }
          [Frame.move 10 20, Frame.startGame]).1).players) :=
  ⟨by decide, C6_handler_cleanup sA "b" [Frame.move 10 20, Frame.startGame] (by decide)⟩

/-- C7: a `move {dx, dy}` frame from the connection of registered player `P`
(the record found under P's id) is handled by setting that record's `x` to
`dx` and `y` to `dy` (the code's absolute-position semantics; all other fields
of the record are kept), every other player's record is untouched, the game
state is untouched, and the next broadcast snapshot reports the updated
position for P. -/
theorem C7_move_updates_only_sender (st : ServerState) (pid : String) (dx dy : Int)
    (p : PlayerData) (hp : getPlayer pid st.players = some p) :
    applyFrame st pid (Frame.move dx dy) = some (applyMove st pid dx dy) ∧
    getPlayer pid (applyMove st pid dx dy).players = some { p with x := dx, y := dy } ∧
    (∀ q, q ≠ pid → getPlayer q (applyMove st pid dx dy).players = getPlayer q st.players) ∧
    (applyMove st pid dx dy).gameState = st.gameState ∧
    lookupSnapshot pid (snapshot (applyMove st pid dx dy).players) =
      some (PlayerData.to_dict { p with x := dx, y := dy }) := by
  have hid : ∀ q : PlayerData,
      ((fun q => if q.playerId = pid then { q with x := dx, y := dy } else q) q).playerId =
        q.playerId := by
    intro q
    dsimp only
    split <;> rfl
  have hmap : getPlayer pid (applyMove st pid dx dy).players =
      (getPlayer pid st.players).map
        (fun q => if q.playerId = pid then { q with x := dx, y := dy } else q) :=
    getPlayer_map pid st.players _ hid
  have hppid : p.playerId = pid := getPlayer_playerId pid st.players p hp
  have e2 : getPlayer pid (applyMove st pid dx dy).players =
      some { p with x := dx, y := dy } := by
    rw [hmap, hp]
    simp [hppid]
  refine ⟨rfl, e2, ?_, rfl, ?_⟩
  · intro q hq
    have hmapq : getPlayer q (applyMove st pid dx dy).players =
        (getPlayer q st.players).map
          (fun r => if r.playerId = pid then { r with x := dx, y := dy } else r) :=
      getPlayer_map q st.players _ hid
    rw [hmapq]
    cases hfind : getPlayer q st.players with
    | none => rfl
    | some r =>
      have hrq : r.playerId = q := getPlayer_playerId q st.players r hfind
      simp [hrq, hq]
  · rw [lookupSnapshot_snapshot, e2]
    rfl

theorem C7_move_updates_only_sender_witness :
    (getPlayer "a" sAB.players = some pA) ∧
      (applyFrame sAB "a" (Frame.move 10 20) = some (applyMove sAB "a" 10 20) ∧
      getPlayer "a" (applyMove sAB "a" 10 20).players = some { pA with x := 10, y := 20 } ∧
      (∀ q, q ≠ "a" → getPlayer q (applyMove sAB "a" 10 20).players = getPlayer q sAB.players) ∧
      (applyMove sAB "a" 10 20).gameState = sAB.gameState ∧
      lookupSnapshot "a" (snapshot (applyMove sAB "a" 10 20).players) =
        some (PlayerData.to_dict { pA with x := 10, y := 20 })) :=
  ⟨by decide, C7_move_updates_only_sender sAB "a" 10 20 pA (by decide)⟩

theorem stepOp_gameState_of_not_start (st : ServerState) (op : Op)
    (h : isStartGame op = false) : (stepOp st op).gameState = st.gameState := by
  cases op with
  | connect pid => rfl
  | disconnect pid => rfl
  | frame pid f =>
    cases f with
    | malformed => rfl
    | missingType => rfl
    | moveMissingField => rfl
    | stageCompletedMissingField => rfl
    | move dx dy => rfl
    | stageCompletedMsg b => rfl
    | startGame => exact absurd h (by simp [isStartGame])
    | unknown t => rfl

theorem stepOp_started_true (st : ServerState) (op : Op)
    (h : st.gameState.stageStarted = true) :
    (stepOp st op).gameState.stageStarted = true := by
  cases op with
  | connect pid => exact h
  | disconnect pid => exact h
  | frame pid f =>
    cases f with
    | malformed => exact h
    | missingType => exact h
    | moveMissingField => exact h
    | stageCompletedMissingField => exact h
    | move dx dy => exact h
    | stageCompletedMsg b => exact h
    | unknown t => exact h
    | startGame =>
      show (start_stage st).gameState.stageStarted = true
      unfold start_stage
      split
      · exact h
      · rfl

theorem runOps_started_true (ops : List Op) :
    ∀ st : ServerState, st.gameState.stageStarted = true →
      (runOps st ops).gameState.stageStarted = true := by
  induction ops with
  | nil => exact fun _ h => h
  | cons op rest ih => exact fun st h => ih (stepOp st op) (stepOp_started_true st op h)

/-- C10: `stageStarted` is monotone along every reachable operation sequence —
once true it stays true under any mix of connects, disconnects, and inbound
frames — because a `startGame` frame (the only path into `start_stage`) is the
only operation that touches `game_state` at all, and `start_stage` either
leaves the state untouched (fewer than 2 players) or sets `stageStarted` to
`true`; it never writes `false`. -/
theorem C10_stageStarted_monotone :
    (∀ (st : ServerState) (ops : List Op), st.gameState.stageStarted = true →
      (runOps st ops).gameState.stageStarted = true) ∧
    (∀ (st : ServerState) (op : Op), isStartGame op = false →
      (stepOp st op).gameState = st.gameState) ∧
    (∀ (st : ServerState) (op : Op),
      (stepOp st op).gameState.stageStarted = st.gameState.stageStarted ∨
        (stepOp st op).gameState.stageStarted = true) := by
  refine ⟨fun st ops h => runOps_started_true ops st h, stepOp_gameState_of_not_start, ?_⟩
  intro st op
  cases op with
  | connect pid => exact Or.inl rfl
  | disconnect pid => exact Or.inl rfl
  | frame pid f =>
    cases f with
    | startGame =>
      show (start_stage st).gameState.stageStarted = st.gameState.stageStarted ∨
        (start_stage st).gameState.stageStarted = true
      unfold start_stage
      split
      · exact Or.inl rfl
      · exact Or.inr rfl
    | malformed => exact Or.inl rfl
    | missingType => exact Or.inl rfl
    | moveMissingField => exact Or.inl rfl
    | stageCompletedMissingField => exact Or.inl rfl
    | move dx dy => exact Or.inl rfl
    | stageCompletedMsg b => exact Or.inl rfl
    | unknown t => exact Or.inl rfl



theorem C10_stageStarted_monotone_witness :
    (sStarted.gameState.stageStarted = true ∧
      (runOps sStarted [Op.connect "c", Op.frame "c" (Frame.move 1 2),
        Op.frame "c" Frame.malformed, Op.disconnect "a",
        Op.frame "b" Frame.startGame]).gameState.stageStarted = true) ∧
    (isStartGame (Op.connect "c") = false ∧
      (stepOp sStarted (Op.connect "c")).gameState = sStarted.gameState) :=
  ⟨⟨rfl, C10_stageStarted_monotone.1 sStarted
      [Op.connect "c", Op.frame "c" (Frame.move 1 2), Op.frame "c" Frame.malformed,
        Op.disconnect "a", Op.frame "b" Frame.startGame] rfl⟩,
    ⟨rfl, C10_stageStarted_monotone.2.1 sStarted (Op.connect "c") rfl⟩⟩

/-- C1 counterexample: the cop/robber id lists are not cleared by
`start_stage`, so the claim's disjointness/coverage clause fails once the
registry has changed between two round starts.  From the fresh 2-player state:
round 1 assigns cops `["a"]`, robbers `["b"]`; then `"a"` disconnects, `"c"`
connects, and a second successful `start_stage` on this 2-player registry
yields cops `["a", "b"]` and robbers `["b", "c"]` — `"b"` is in both lists and
the departed `"a"` is still listed although unregistered. -/
theorem C1_dirty_state_cex :
    2 ≤ sMid.players.length ∧
    (start_stage sMid).gameState.cops = ["a", "b"] ∧
    (start_stage sMid).gameState.robbers = ["b", "c"] ∧
    ¬ (start_stage sMid).gameState.cops.Disjoint (start_stage sMid).gameState.robbers ∧
    "a" ∈ (start_stage sMid).gameState.cops ∧
    "a" ∉ registryKeys sMid.players := by
  refine ⟨by decide, by decide, by decide, ?_, by decide, by decide⟩
  intro h
  exact h (show "b" ∈ (start_stage sMid).gameState.cops by decide) (by decide)
